import Mathlib

/-!
Verification of the Anime Opening Generator frontend
(`src/frontend/src/App.js`, second document in the file — the version with
real polling, progress state and token persistence).

The component's React state hooks become the fields of `AppState`; the
browser's `localStorage` becomes a `LocalStorage` map; each network call
becomes a typed `Request` value together with an environment-supplied
response.  Handlers (`checkGenerationProgress`, `generateOpening`,
`saveVideo`, `removeImage`, `handleLogin`, `handleLogout` and the mount
effect) are translated line by line into pure state-passing functions that
also report the alerts raised and the requests issued.  JavaScript
truthiness tests (`data.progress || 0`, `if (authToken)`,
`data.result && data.result.video_url`, `if (storedToken)`) are modelled
explicitly: absent values are `Option.none` and empty strings are falsy.
-/

/-- Backend API base address (`const API_URL = "http://localhost:8000"`). -/
def API_URL : String := "http://localhost:8000"

/-- One staged image: the raw file handle, its decoded preview data URI and
its display name (the object built in `handleImageUpload`). -/
structure ImageEntry where
  file : String
  preview : String
  name : String
deriving DecidableEq, Repr

/-- The component's state hooks, with their `useState` initial values
collected in `initState` below. -/
structure AppState where
  images : List ImageEntry
  isGenerating : Bool
  generatedVideo : Option String
  videoTheme : String
  isAuthenticated : Bool
  userName : String
  generationProgress : Int
  authToken : String
  taskId : Option String
deriving DecidableEq, Repr

/-- Initial state: the arguments of the `useState` calls. -/
def initState : AppState :=
  { images := [], isGenerating := false, generatedVideo := none,
    videoTheme := "action", isAuthenticated := false, userName := "",
    generationProgress := 0, authToken := "", taskId := none }

/-- The `result` object of a status response (`data.result`). -/
structure StatusResult where
  video_url : Option String
deriving DecidableEq, Repr

/-- A response to `GET /api/generation-status/:taskId`.  `ok := false`
covers both a non-2xx HTTP status (the code throws on `!response.ok`) and a
transport-level fetch failure — both land in the same `catch` block, which
logs and returns `false` without touching state. -/
structure StatusResponse where
  ok : Bool
  status : String
  progress : Option Int
  result : Option StatusResult
  message : Option String
deriving DecidableEq, Repr

/-- A network request issued by the component, abstracted from the raw
`fetch` call: the multipart submission `POST /api/generate-opening`, the
status query `GET /api/generation-status/:tid`, and the save
`POST /api/save-opening`. -/
inductive Request where
  | submitJob (theme : String) (nImages : Nat) (bearer : Option String)
  | statusQuery (tid : String)
  | saveOpening (openingId : String) (title : String) (bearer : Option String)
deriving DecidableEq, Repr

/-- `if (authToken) headers.Authorization = ...`: the bearer header is
attached exactly when the token string is truthy (non-empty). -/
def bearerOf (tok : String) : Option String :=
  if tok = "" then none else some tok

/-- The JavaScript truthiness of `data.result && data.result.video_url`:
the value used only when `result` is present and `video_url` is a truthy
(present, non-empty) string. -/
def respVideoUrl (resp : StatusResponse) : Option String :=
  match resp.result with
  | none => none
  | some r =>
    match r.video_url with
    | none => none
    | some u => if u = "" then none else some u

/-- What one call of `checkGenerationProgress` produced: the state after
its `set*` calls, the alerts it raised, the progress values it wrote
(`setGenerationProgress` calls, in order), and its return value (`true`
means the job is finished and the caller's poll loop stops). -/
structure CheckResult where
  state : AppState
  alerts : List String
  writes : List Int
  done : Bool
deriving DecidableEq, Repr

/-- `checkGenerationProgress(taskId)` given the response the fetch
returned.  On a non-ok / failed fetch the `catch` block returns `false`
with no state change.  Otherwise `setGenerationProgress(data.progress || 0)`
runs unconditionally, then the terminal statuses are handled:
`"completed"` clears `isGenerating` and publishes the video URL when one is
truthy; `"failed"` clears `isGenerating` and alerts with `data.message`.
Note the handler never compares `tid` with the state's `taskId`. -/
def checkGenerationProgress (tid : String) (resp : StatusResponse)
    (s : AppState) : CheckResult :=
  if resp.ok = false then
    { state := s, alerts := [], writes := [], done := false }
  else
    let p := resp.progress.getD 0
    let s1 := { s with generationProgress := p }
    if resp.status = "completed" then
      let s2 :=
        match respVideoUrl resp with
        | some u =>
          { s1 with isGenerating := false,
                    generatedVideo := some (API_URL ++ u) }
        | none => { s1 with isGenerating := false }
      { state := s2, alerts := [], writes := [p], done := true }
    else if resp.status = "failed" then
      { state := { s1 with isGenerating := false },
        alerts := ["Generation failed: " ++ resp.message.getD "undefined"],
        writes := [p], done := true }
    else
      { state := s1, alerts := [], writes := [p], done := false }

/-- The outcome of the submission fetch in `generateOpening`:
a transport failure, a non-ok HTTP status (both reach the same `catch`),
or a parsed JSON body whose `task_id` may be absent. -/
inductive SubmitOutcome where
  | transportFault
  | httpError (code : Nat)
  | success (task_id : Option String)
deriving DecidableEq, Repr

/-- What a whole poll loop run produced. -/
structure PollResult where
  state : AppState
  alerts : List String
  requests : List Request
  writes : List Int
deriving DecidableEq, Repr

/-- The `while (!completed && isGenerating)` loop of `generateOpening`.
`isGen` is the value of `isGenerating` captured by the handler's closure at
the render that created it (a constant for the whole loop — the later
`setIsGenerating(true)` does not update the closure).  `resps` is the
sequence of responses the status endpoint would return to consecutive
queries; the loop consumes them one per cycle until a call returns
`true`. -/
def pollLoop (isGen : Bool) (tid : String) :
    List StatusResponse → AppState → PollResult
  | [], s => { state := s, alerts := [], requests := [], writes := [] }
  | r :: rs, s =>
    if isGen then
      let c := checkGenerationProgress tid r s
      if c.done then
        { state := c.state, alerts := c.alerts,
          requests := [Request.statusQuery tid], writes := c.writes }
      else
        let rest := pollLoop isGen tid rs c.state
        { state := rest.state, alerts := c.alerts ++ rest.alerts,
          requests := Request.statusQuery tid :: rest.requests,
          writes := c.writes ++ rest.writes }
    else { state := s, alerts := [], requests := [], writes := [] }

/-- The simulated progress values of the demo fallback:
`for (let i = 0; i <= 100; i += 10) setGenerationProgress(i)`. -/
def fallbackRamp : List Int := (List.range 11).map fun i => 10 * (i : Int)

/-- What a whole `generateOpening` run produced. -/
structure GenResult where
  state : AppState
  alerts : List String
  requests : List Request
  writes : List Int
deriving DecidableEq, Repr

/-- The state right after the two leading `set*` calls of
`generateOpening`: `setIsGenerating(true); setGenerationProgress(0)`. -/
def submitTransition (s : AppState) : AppState :=
  { s with isGenerating := true, generationProgress := 0 }

/-- `generateOpening`, parameterised by the submission outcome and the
status responses available to the poll loop.  The empty-images guard
precedes every `set*` call and every fetch.  On `task_id` present the loop
polls (gated by the closure value of `isGenerating`); on `task_id` absent
the demo fallback ramps progress locally and publishes the fixed sample
video without ever querying status. -/
def generateOpening (s : AppState) (outcome : SubmitOutcome)
    (resps : List StatusResponse) : GenResult :=
  if s.images.length = 0 then
    { state := s, alerts := ["Please upload at least one image!"],
      requests := [], writes := [] }
  else
    let s1 := submitTransition s
    let req := Request.submitJob s.videoTheme s.images.length
      (bearerOf s.authToken)
    match outcome with
    | SubmitOutcome.transportFault =>
      { state := { s1 with isGenerating := false },
        alerts := ["Failed to generate anime opening. Please try again."],
        requests := [req], writes := [0] }
    | SubmitOutcome.httpError _ =>
      { state := { s1 with isGenerating := false },
        alerts := ["Failed to generate anime opening. Please try again."],
        requests := [req], writes := [0] }
    | SubmitOutcome.success none =>
      let s2 :=
        { s1 with generationProgress := 100,
                  generatedVideo := some "/sample-anime-opening.mp4",
                  isGenerating := false }
      { state := s2, alerts := [], requests := [req],
        writes := 0 :: fallbackRamp }
    | SubmitOutcome.success (some tid) =>
      let s2 := { s1 with taskId := some tid }
      let p := pollLoop s.isGenerating tid resps s2
      { state := p.state, alerts := p.alerts,
        requests := req :: p.requests, writes := 0 :: p.writes }

/-- A response to `POST /api/save-opening`: the HTTP `ok` flag and the
body's `success` flag. -/
structure SaveResponse where
  ok : Bool
  success : Bool
deriving DecidableEq, Repr

/-- The outcome of the save fetch in `saveVideo`. -/
inductive SaveOutcome where
  | transportFault
  | resp (r : SaveResponse)
deriving DecidableEq, Repr

/-- What a `saveVideo` run produced.  `saveVideo` never calls a state
setter, so `state` always carries the input state through unchanged. -/
structure SaveResult where
  state : AppState
  alerts : List String
  requests : List Request
deriving DecidableEq, Repr

/-- `My ${videoTheme.charAt(0).toUpperCase() + videoTheme.slice(1)} Anime
Opening`: the saved title capitalizes the first character of the theme. -/
def saveTitle (theme : String) : String :=
  match theme.data with
  | [] => "My  Anime Opening"
  | c :: cs => "My " ++ String.mk (c.toUpper :: cs) ++ " Anime Opening"

/-- `saveVideo`.  The authentication guard precedes the fetch; when it
fails only an alert is raised and no request is issued.  Otherwise one save
request goes out with `opening_id` `taskId || 'latest'` and the bearer
header when the token is truthy, and the response's flags pick the
alert. -/
def saveVideo (s : AppState) (outcome : SaveOutcome) : SaveResult :=
  if s.isAuthenticated = false then
    { state := s, alerts := ["Please log in to save your anime opening!"],
      requests := [] }
  else
    let req := Request.saveOpening (s.taskId.getD "latest")
      (saveTitle s.videoTheme) (bearerOf s.authToken)
    match outcome with
    | SaveOutcome.transportFault =>
      { state := s,
        alerts := ["Failed to save your anime opening. Please try again."],
        requests := [req] }
    | SaveOutcome.resp r =>
      if r.ok = false then
        { state := s,
          alerts := ["Failed to save your anime opening. Please try again."],
          requests := [req] }
      else if r.success then
        { state := s, alerts := ["Your anime opening has been saved!"],
          requests := [req] }
      else
        { state := s,
          alerts := ["Failed to save your anime opening. Please try again."],
          requests := [req] }

/-- The browser's `localStorage`: a map from keys to stored strings. -/
def LocalStorage : Type := String → Option String

/-- `localStorage.setItem`. -/
def lsSetItem (key val : String) (st : LocalStorage) : LocalStorage :=
  fun k => if k = key then some val else st k

/-- `localStorage.removeItem`. -/
def lsRemoveItem (key : String) (st : LocalStorage) : LocalStorage :=
  fun k => if k = key then none else st k

/-- `localStorage.getItem`. -/
def lsGetItem (key : String) (st : LocalStorage) : Option String := st key

/-- `handleLogin`: builds a mock token from a random suffix, marks the
state authenticated and stores the token in `localStorage` under the fixed
key `"auth_token"`. -/
def handleLogin (rand : String) (s : AppState) (st : LocalStorage) :
    AppState × LocalStorage :=
  let mockToken := "hackathon-demo-token-" ++ rand
  ({ s with authToken := mockToken, isAuthenticated := true,
            userName := "HackathonUser" },
   lsSetItem "auth_token" mockToken st)

/-- `handleLogout`: clears the in-memory token, authentication flag and
user name, and removes the `"auth_token"` record from `localStorage`. -/
def handleLogout (s : AppState) (st : LocalStorage) :
    AppState × LocalStorage :=
  ({ s with authToken := "", isAuthenticated := false, userName := "" },
   lsRemoveItem "auth_token" st)

/-- The mount `useEffect`: reads `localStorage.getItem('auth_token')` and,
when the stored token is truthy (present and non-empty), adopts it as the
current credential and marks the state authenticated — without calling
`handleLogin`. -/
def rehydrateOnMount (st : LocalStorage) (s : AppState) : AppState :=
  match lsGetItem "auth_token" st with
  | none => s
  | some storedToken =>
    if storedToken = "" then s
    else { s with authToken := storedToken, isAuthenticated := true,
                  userName := "HackathonUser" }

/-- `removeImage(index)`: `images.filter((_, i) => i !== index)`. -/
def removeImage (index : Nat) (l : List ImageEntry) : List ImageEntry :=
  (l.enum.filter (fun p => p.1 != index)).map Prod.snd

lemma filter_enumFrom_ne_of_lt {α : Type} (l : List α) (n k : Nat)
    (hk : k < n) :
    ((List.enumFrom n l).filter (fun p => p.1 != k)).map Prod.snd = l := by
  induction l generalizing n with
  | nil => rfl
  | cons a l ih =>
    have hne : (n != k) = true := by
      simp only [bne_iff_ne, ne_eq]
      omega
    simp [List.enumFrom, List.filter, hne,
      ih (n + 1) (Nat.lt_succ_of_lt hk)]

lemma filter_enumFrom_eraseIdx {α : Type} (l : List α) (n i : Nat) :
    ((List.enumFrom n l).filter (fun p => p.1 != (n + i))).map Prod.snd =
      if i < l.length then l.eraseIdx i else l := by
  induction l generalizing n i with
  | nil => simp [List.enumFrom]
  | cons a l ih =>
    cases i with
    | zero =>
      have h0 : (n != (n + 0)) = false := by simp
      simp [List.enumFrom, List.filter, h0,
        filter_enumFrom_ne_of_lt l (n + 1) n (Nat.lt_succ_self n),
        List.eraseIdx]
    | succ j =>
      have h1 : (n != (n + 1 + j)) = true := by
        simp only [bne_iff_ne, ne_eq]
        omega
      have hrec := ih (n + 1) j
      have heq : n + (j + 1) = n + 1 + j := by omega
      rw [heq]
      by_cases hj : j < l.length
      · simp [List.enumFrom, List.filter, h1, hrec, hj, List.eraseIdx,
          Nat.succ_lt_succ hj]
      · have hj2 : ¬ (j + 1 < l.length + 1) := by omega
        simp [List.enumFrom, List.filter, h1, hrec, hj, hj2]

lemma check_done_iff (tid : String) (r : StatusResponse) (s : AppState) :
    (checkGenerationProgress tid r s).done = true ↔
      r.ok = true ∧ (r.status = "completed" ∨ r.status = "failed") := by
  unfold checkGenerationProgress
  cases hok : r.ok <;> by_cases h1 : r.status = "completed" <;>
    by_cases h2 : r.status = "failed" <;>
    cases hvu : respVideoUrl r <;>
    simp [hok, h1, h2, hvu]

lemma mockToken_ne_empty (r : String) :
    "hackathon-demo-token-" ++ r ≠ "" := by
  intro h
  have hlen := congrArg String.length h
  simp [String.length_append] at hlen
  exact absurd hlen.1 (by decide)

/-- Concrete sample data reused by the concrete instantiations below. -/
def oneImage : ImageEntry :=
  { file := "me.png", preview := "data:image/png;base64,AAAA",
    name := "me.png" }

/-- A state with one staged image, ready to generate. -/
def stagedState : AppState := { initState with images := [oneImage] }

/-- A state mid-generation for job `job-1` with stored progress 40 (the
spec's §8 scenario). -/
def monoState : AppState :=
  { initState with
      isGenerating := true, taskId := some "job-1",
      generationProgress := 40 }

/-- A status response reporting the lower progress value 30. -/
def lowResp : StatusResponse :=
  { ok := true, status := "in_progress", progress := some 30,
    result := none, message := none }

/-- A terminal-success response carrying a result reference. -/
def termResp : StatusResponse :=
  { ok := true, status := "completed", progress := some 100,
    result := some { video_url := some "/r/job-1.mp4" }, message := none }

/-- A terminal-success response with no `result` object at all. -/
def bareCompleted : StatusResponse :=
  { ok := true, status := "completed", progress := some 100,
    result := none, message := none }

/-- A state whose active job is `job-2` (a fresh submit superseded
`job-1`). -/
def staleState : AppState :=
  { initState with isGenerating := true, taskId := some "job-2" }

/-- A late status response belonging to the superseded job `job-1`. -/
def staleResp : StatusResponse :=
  { ok := true, status := "in_progress", progress := some 99,
    result := none, message := none }

/-- C9: `removeImage index` removes exactly the entry at position `index`
when the index is in range — it agrees with `List.eraseIdx`, which keeps
every remaining entry in its original relative order — and is a no-op
returning the buffer unchanged when the index is out of range. -/
theorem removeImage_eraseIdx (index : Nat) (l : List ImageEntry) :
    removeImage index l =
      if index < l.length then l.eraseIdx index else l := by
  have h := filter_enumFrom_eraseIdx l 0 index
  simpa [removeImage, List.enum] using h

/-- C4: `generateOpening` on an empty staging buffer raises only the
validation alert, issues no network request, writes no progress value and
leaves the state unchanged, whatever the network would have answered. -/
theorem generateOpening_empty_validation (s : AppState)
    (o : SubmitOutcome) (rs : List StatusResponse) (h : s.images = []) :
    generateOpening s o rs =
      { state := s, alerts := ["Please upload at least one image!"],
        requests := [], writes := [] } := by
  simp [generateOpening, h]

theorem generateOpening_empty_validation_witness :
    initState.images = [] ∧
      generateOpening initState SubmitOutcome.transportFault [] =
        { state := initState,
          alerts := ["Please upload at least one image!"],
          requests := [], writes := [] } :=
  ⟨rfl, generateOpening_empty_validation initState
    SubmitOutcome.transportFault [] rfl⟩

/-- C7: `saveVideo` without an authenticated session raises only the
login-required alert, issues no network request and leaves the state
unchanged, whatever the network would have answered. -/
theorem saveVideo_unauthenticated (s : AppState) (o : SaveOutcome)
    (h : s.isAuthenticated = false) :
    saveVideo s o =
      { state := s,
        alerts := ["Please log in to save your anime opening!"],
        requests := [] } := by
  simp [saveVideo, h]

theorem saveVideo_unauthenticated_witness :
    initState.isAuthenticated = false ∧
      saveVideo initState SaveOutcome.transportFault =
        { state := initState,
          alerts := ["Please log in to save your anime opening!"],
          requests := [] } :=
  ⟨rfl, saveVideo_unauthenticated initState SaveOutcome.transportFault rfl⟩

/-- C8: the session round-trips through `localStorage` under the fixed key
`"auth_token"`: `handleLogin` stores exactly the in-memory token there and
authenticates; rehydrating a fresh mount from that storage yields an
authenticated state holding the same token without calling `handleLogin`;
`handleLogout` clears the in-memory copy and the stored record, after
which the state reports unauthenticated and rehydration restores
nothing. -/
theorem session_roundtrip (rand : String) (s : AppState)
    (st : LocalStorage) :
    lsGetItem "auth_token" (handleLogin rand s st).2 =
        some (handleLogin rand s st).1.authToken ∧
      (handleLogin rand s st).1.isAuthenticated = true ∧
      (rehydrateOnMount (handleLogin rand s st).2 initState).isAuthenticated
        = true ∧
      (rehydrateOnMount (handleLogin rand s st).2 initState).authToken =
        (handleLogin rand s st).1.authToken ∧
      (handleLogout s st).1.isAuthenticated = false ∧
      (handleLogout s st).1.authToken = "" ∧
      lsGetItem "auth_token" (handleLogout s st).2 = none ∧
      rehydrateOnMount (handleLogout s st).2 initState = initState := by
  refine ⟨rfl, rfl, ?_, ?_, rfl, rfl, rfl, rfl⟩ <;>
    simp [handleLogin, rehydrateOnMount, lsGetItem, lsSetItem,
      mockToken_ne_empty rand]

/-- C1 (amended): each polling cycle with an ok response overwrites the
stored progress with the response's reported value (0 when the field is
absent); the value is neither clamped to 0–100 nor compared with the
current progress, so a lower reported value replaces the stored one. -/
theorem checkGenerationProgress_overwrites (tid : String)
    (r : StatusResponse) (s : AppState) (h : r.ok = true) :
    (checkGenerationProgress tid r s).state.generationProgress =
      r.progress.getD 0 := by
  unfold checkGenerationProgress
  by_cases h1 : r.status = "completed"
  · cases hvu : respVideoUrl r <;> simp [h, h1, hvu]
  · by_cases h2 : r.status = "failed" <;> simp [h, h1, h2]

theorem checkGenerationProgress_overwrites_witness :
    lowResp.ok = true ∧
      (checkGenerationProgress "job-1" lowResp
          monoState).state.generationProgress = lowResp.progress.getD 0 :=
  ⟨rfl, checkGenerationProgress_overwrites "job-1" lowResp monoState rfl⟩

/-- C1 counterexample: with stored progress 40, the §8 response
`(in_progress, 30)` is not rejected — the stored value drops to 30, so
consecutive observed values can decrease. -/
theorem progress_can_decrease :
    monoState.generationProgress = 40 ∧
      (checkGenerationProgress "job-1" lowResp
          monoState).state.generationProgress = 30 ∧
      (checkGenerationProgress "job-1" lowResp
          monoState).state.generationProgress <
        monoState.generationProgress := by
  decide

/-- C3 (amended): a status response for a superseded job is not discarded:
the handler contains no comparison between the polled job id and the
currently active `taskId` — its result is literally independent of the
polled id — and an ok response mutates the stored progress even when the
polled job differs from the active one. -/
theorem stale_response_not_discarded (tid : String) (r : StatusResponse)
    (s : AppState) (hstale : some tid ≠ s.taskId) (h : r.ok = true) :
    checkGenerationProgress tid r s =
        checkGenerationProgress (s.taskId.getD "") r s ∧
      (checkGenerationProgress tid r s).state.generationProgress =
        r.progress.getD 0 := by
  constructor
  · rfl
  · unfold checkGenerationProgress
    by_cases h1 : r.status = "completed"
    · cases hvu : respVideoUrl r <;> simp [h, h1, hvu]
    · by_cases h2 : r.status = "failed" <;> simp [h, h1, h2]

theorem stale_response_not_discarded_witness :
    some "job-1" ≠ staleState.taskId ∧ staleResp.ok = true ∧
      (checkGenerationProgress "job-1" staleResp staleState =
          checkGenerationProgress (staleState.taskId.getD "") staleResp
            staleState ∧
        (checkGenerationProgress "job-1" staleResp
            staleState).state.generationProgress =
          staleResp.progress.getD 0) :=
  ⟨by decide, rfl,
    stale_response_not_discarded "job-1" staleResp staleState
      (by decide) rfl⟩

/-- C3 counterexample: the active job is `job-2`, yet the late response for
the superseded `job-1` is applied — the state is mutated (progress jumps to
99) instead of being discarded. -/
theorem stale_response_mutates :
    staleState.taskId = some "job-2" ∧
      (checkGenerationProgress "job-1" staleResp staleState).state ≠
        staleState ∧
      (checkGenerationProgress "job-1" staleResp
          staleState).state.generationProgress = 99 := by
  decide

/-- C2: once a poll cycle sees a terminal response (`completed` or
`failed`), the loop stops, so every status response arriving after the
terminal one contributes nothing: the final state, alerts, issued requests
and progress writes all equal those of the run that ends at the terminal
response. -/
theorem pollLoop_terminal_idempotent (isGen : Bool) (tid : String)
    (rs1 : List StatusResponse) (t : StatusResponse)
    (rs2 : List StatusResponse) (s : AppState) (hok : t.ok = true)
    (hterm : t.status = "completed" ∨ t.status = "failed") :
    pollLoop isGen tid (rs1 ++ t :: rs2) s =
      pollLoop isGen tid (rs1 ++ [t]) s := by
  have hdone : ∀ s' : AppState,
      (checkGenerationProgress tid t s').done = true := fun s' =>
    (check_done_iff tid t s').mpr ⟨hok, hterm⟩
  induction rs1 generalizing s with
  | nil =>
    cases isGen with
    | false => simp [pollLoop]
    | true => simp [pollLoop, hdone s]
  | cons r rs ih =>
    cases isGen with
    | false => simp [pollLoop]
    | true =>
      simp only [List.cons_append, pollLoop, if_true]
      by_cases hd : (checkGenerationProgress tid r s).done = true
      · simp [hd]
      · simp [hd, ih]

theorem pollLoop_terminal_idempotent_witness :
    termResp.ok = true ∧
      (termResp.status = "completed" ∨ termResp.status = "failed") ∧
      pollLoop true "job-1" ([lowResp] ++ termResp :: [staleResp])
          monoState =
        pollLoop true "job-1" ([lowResp] ++ [termResp]) monoState :=
  ⟨rfl, Or.inl rfl,
    pollLoop_terminal_idempotent true "job-1" [lowResp] termResp
      [staleResp] monoState rfl (Or.inl rfl)⟩

/-- C10: an ok response with status `completed` but no usable result
reference still finishes the job — the call returns `true` (ending the
poll loop) and clears `isGenerating` — while the published video reference
is left exactly as it was. -/
theorem completed_without_result_terminates (tid : String)
    (r : StatusResponse) (s : AppState) (hok : r.ok = true)
    (hst : r.status = "completed") (hvu : respVideoUrl r = none) :
    (checkGenerationProgress tid r s).done = true ∧
      (checkGenerationProgress tid r s).state.isGenerating = false ∧
      (checkGenerationProgress tid r s).state.generatedVideo =
        s.generatedVideo := by
  unfold checkGenerationProgress
  simp [hok, hst, hvu]

theorem completed_without_result_terminates_witness :
    bareCompleted.ok = true ∧ bareCompleted.status = "completed" ∧
      respVideoUrl bareCompleted = none ∧
      ((checkGenerationProgress "job-1" bareCompleted monoState).done =
          true ∧
        (checkGenerationProgress "job-1" bareCompleted
            monoState).state.isGenerating = false ∧
        (checkGenerationProgress "job-1" bareCompleted
            monoState).state.generatedVideo = monoState.generatedVideo) :=
  ⟨rfl, rfl, rfl,
    completed_without_result_terminates "job-1" bareCompleted monoState
      rfl rfl rfl⟩

/-- C5: with a non-empty staging buffer, `generateOpening` immediately
enters the generating state with progress reset to 0 — the first progress
write of every run is 0 — and a successful submission with a real job id
starts polling from exactly that pending state (generating, progress 0,
the returned id recorded). -/
theorem submit_pending_progress_zero (s : AppState) (o : SubmitOutcome)
    (rs : List StatusResponse) (tid : String) (h : s.images ≠ []) :
    (submitTransition s).isGenerating = true ∧
      (submitTransition s).generationProgress = 0 ∧
      (generateOpening s o rs).writes.head? = some 0 ∧
      (generateOpening s (SubmitOutcome.success (some tid)) rs).state =
        (pollLoop s.isGenerating tid rs
          { submitTransition s with taskId := some tid }).state := by
  have hlen : ¬ s.images.length = 0 := by
    simpa [List.length_eq_zero] using h
  refine ⟨rfl, rfl, ?_, ?_⟩
  · cases o with
    | transportFault => simp [generateOpening, hlen]
    | httpError c => simp [generateOpening, hlen]
    | success tidOpt => cases tidOpt <;> simp [generateOpening, hlen]
  · simp [generateOpening, hlen]

theorem submit_pending_progress_zero_witness :
    stagedState.images ≠ [] ∧
      ((submitTransition stagedState).isGenerating = true ∧
        (submitTransition stagedState).generationProgress = 0 ∧
        (generateOpening stagedState
            (SubmitOutcome.success (some "job-1")) []).writes.head? =
          some 0 ∧
        (generateOpening stagedState
            (SubmitOutcome.success (some "job-1")) []).state =
          (pollLoop stagedState.isGenerating "job-1" []
            { submitTransition stagedState with
                taskId := some "job-1" }).state) :=
  ⟨by decide,
    submit_pending_progress_zero stagedState
      (SubmitOutcome.success (some "job-1")) [] "job-1" (by decide)⟩

/-- C6: when the submission succeeds without a `task_id`, the run reaches
the completed state (`isGenerating = false`) with the fixed placeholder
`/sample-anime-opening.mp4` published, issues exactly the one submission
request and never a status query, and its progress writes are the initial
0 followed by the fixed ramp 0,10,…,100 — 11 values from 0 to 100 in equal
steps of 10. -/
theorem fallback_local_ramp (s : AppState) (rs : List StatusResponse)
    (tid : String) (i : Nat) (h : s.images ≠ []) :
    (generateOpening s (SubmitOutcome.success none) rs).state.generatedVideo
        = some "/sample-anime-opening.mp4" ∧
      (generateOpening s (SubmitOutcome.success none) rs).state.isGenerating
        = false ∧
      (generateOpening s (SubmitOutcome.success none) rs).state.generationProgress
        = 100 ∧
      (generateOpening s (SubmitOutcome.success none) rs).requests =
        [Request.submitJob s.videoTheme s.images.length
          (bearerOf s.authToken)] ∧
      Request.statusQuery tid ∉
        (generateOpening s (SubmitOutcome.success none) rs).requests ∧
      (generateOpening s (SubmitOutcome.success none) rs).writes =
        0 :: fallbackRamp ∧
      fallbackRamp.head? = some 0 ∧
      fallbackRamp.getLast? = some 100 ∧
      (i + 1 < fallbackRamp.length →
        fallbackRamp.getD (i + 1) 0 - fallbackRamp.getD i 0 = 10) := by
  have hlen : ¬ s.images.length = 0 := by
    simpa [List.length_eq_zero] using h
  refine ⟨?_, ?_, ?_, ?_, ?_, ?_, by decide, by decide, ?_⟩
  · simp [generateOpening, hlen]
  · simp [generateOpening, hlen]
  · simp [generateOpening, hlen]
  · simp [generateOpening, hlen]
  · simp [generateOpening, hlen]
  · simp [generateOpening, hlen]
  · intro hi
    have hi10 : i < 10 := by
      have : fallbackRamp.length = 11 := by decide
      omega
    interval_cases i <;> decide

theorem fallback_local_ramp_witness :
    stagedState.images ≠ [] ∧
      ((generateOpening stagedState (SubmitOutcome.success none)
            []).state.generatedVideo = some "/sample-anime-opening.mp4" ∧
        (generateOpening stagedState (SubmitOutcome.success none)
            []).state.isGenerating = false ∧
        (generateOpening stagedState (SubmitOutcome.success none)
            []).state.generationProgress = 100 ∧
        (generateOpening stagedState (SubmitOutcome.success none)
            []).requests =
          [Request.submitJob stagedState.videoTheme
            stagedState.images.length (bearerOf stagedState.authToken)] ∧
        Request.statusQuery "job-1" ∉
          (generateOpening stagedState (SubmitOutcome.success none)
            []).requests ∧
        (generateOpening stagedState (SubmitOutcome.success none)
            []).writes = 0 :: fallbackRamp ∧
        fallbackRamp.head? = some 0 ∧
        fallbackRamp.getLast? = some 100 ∧
        (3 + 1 < fallbackRamp.length →
          fallbackRamp.getD (3 + 1) 0 - fallbackRamp.getD 3 0 = 10)) :=
  ⟨by decide,
    fallback_local_ramp stagedState [] "job-1" 3 (by decide)⟩
